import Mathlib

/-!
Verification of `arxiv_trend_analyzer.py`: a shallow embedding of the
literature-query adapter, keyword classifier, tool dispatcher and the
conversation-loop turn engine, with theorems settling the specification
claims about them.

Python strings are modelled as `String` (or `List Char` where substring
matching matters); Python's `in` on strings is list-infix (`<:+:`) on the
character lists; `dict.get` with possibly-missing keys is `Option`;
exceptions absorbed by `try/except` are an `Except` oracle argument; the
`time.sleep(1)` side effect is instrumented as a sleep counter.
-/

namespace ArxivTrend

/-- A normalized paper record as built in `search_arxiv_papers`
(title, abstract, published date string, category list). -/
structure Paper where
  title : List Char
  abstract : List Char
  published : List Char
  categories : List (List Char)
deriving DecidableEq

/-- The external arxiv provider: given the (possibly missing) year and the
result cap it either yields the hit list or fails (network error, malformed
response, timeout — anything the `except` clause would catch). -/
def Provider : Type := Option Int → Nat → Except Unit (List Paper)

/-- Result of one `search_arxiv_papers` call: the returned records plus the
number of `time.sleep(1)` calls performed. -/
structure SearchOutcome where
  papers : List Paper
  sleeps : Nat
deriving DecidableEq

/-- `search_arxiv_papers(year, max_results)`: on provider success, truncate
the hits to `max_results` (`[:max_results]`), sleep once, return them; on any
provider exception return `[]` — the `except` branch returns without reaching
`time.sleep(1)`. -/
def search_arxiv_papers (provider : Provider) (year : Option Int)
    (max_results : Nat) : SearchOutcome :=
  match provider year max_results with
  | .ok results => { papers := results.take max_results, sleeps := 1 }
  | .error _ => { papers := [], sleeps := 0 }

/-- Python `str.lower()` restricted to the alphabet that occurs here. -/
def pyLower (s : List Char) : List Char := s.map Char.toLower

/-- The fixed keyword list of `filter_agent_papers`. -/
def agent_keywords : List (List Char) :=
  ["agent".data, "multi-agent".data, "agentic".data, "planning".data,
   "reasoning".data, "tool calling".data, "tool use".data]

/-- `title.lower() + " " + abstract.lower()` for one record. -/
def paper_text (p : Paper) : List Char :=
  pyLower p.title ++ " ".data ++ pyLower p.abstract

/-- `any(keyword in text for keyword in agent_keywords)`. -/
def matches_agent_keyword (p : Paper) : Bool :=
  agent_keywords.any (fun k => decide (k <:+: paper_text p))

/-- The summary dict `filter_agent_papers` returns:
`{"year": year, "total_papers": ..., "agent_papers": ...}`.
`year` is `Option Int` because `tool_input.get("year")` can be `None`. -/
structure YearSummary where
  year : Option Int
  total_papers : Nat
  agent_papers : Nat
deriving DecidableEq

/-- `filter_agent_papers(papers, year)`: count the records whose lowered
title-plus-abstract contains at least one keyword; each record increments
`agent_count` at most once. -/
def filter_agent_papers (papers : List Paper) (year : Option Int) :
    YearSummary :=
  { year := year
  , total_papers := papers.length
  , agent_papers := papers.countP matches_agent_keyword }

/-- JSON rendering of the possibly-missing year (`None` serializes to
`null`). -/
def json_of_year (y : Option Int) : String :=
  match y with
  | none => "null"
  | some n => toString n

/-- `json.dumps(filter_results, ensure_ascii=False)` for the fixed
three-field summary dict, with Python's default separators and the dict's
insertion order. -/
def json_dumps_summary (s : YearSummary) : String :=
  "\x7b\"year\": " ++ json_of_year s.year ++
    ", \"total_papers\": " ++ toString s.total_papers ++
    ", \"agent_papers\": " ++ toString s.agent_papers ++ "\x7d"

/-- The structured arguments of a tool invocation: the schema of
`search_and_filter_papers` declares integer `year` (required) and integer
`max_results` (optional); an `Option` field is `none` when the key is absent
from the mapping. -/
structure ToolInput where
  year : Option Int
  max_results : Option Nat
deriving DecidableEq

/-- `process_tool_call(tool_name, tool_input)`: dispatch to the one known
local tool (defaulting `max_results` to 200), or answer with the sentinel
text for any other name. -/
def process_tool_call (provider : Provider) (tool_name : String)
    (tool_input : ToolInput) : String :=
  if tool_name = "search_and_filter_papers" then
    let year := tool_input.year
    let max_results := tool_input.max_results.getD 200
    let papers := (search_arxiv_papers provider year max_results).papers
    let filter_results := filter_agent_papers papers year
    json_dumps_summary filter_results
  else
    "Unknown tool: " ++ tool_name

/-- Consume an expected literal from the front of a character list. -/
def eat_lit : List Char → List Char → Option (List Char)
  | [], l => some l
  | _ :: _, [] => none
  | a :: p, b :: l => if a = b then eat_lit p l else none

/-- Decimal digit run to a natural number (`none` on empty or non-digit). -/
def digits_to_nat (l : List Char) : Option Nat :=
  if l = [] then none
  else if l.all Char.isDigit then
    some (l.foldl (fun acc c => acc * 10 + (c.toNat - 48)) 0)
  else none

/-- Signed decimal integer from characters. -/
def parse_int_chars : List Char → Option Int
  | '-' :: rest => (digits_to_nat rest).map (fun n => -(n : Int))
  | l => (digits_to_nat l).map (fun n => (n : Int))

/-- Decoder for the serialized summary: recovers the three fields from the
exact key names and layout `json_dumps_summary` emits. -/
def decode_summary (s : String) : Option YearSummary := do
  let l := s.data
  let l ← eat_lit "\x7b\"year\": ".data l
  let yearChars := l.takeWhile (fun c => c ≠ ',')
  let l := l.dropWhile (fun c => c ≠ ',')
  let yv ← if yearChars = "null".data then some none
           else (parse_int_chars yearChars).map some
  let l ← eat_lit ", \"total_papers\": ".data l
  let totChars := l.takeWhile (fun c => c ≠ ',')
  let l := l.dropWhile (fun c => c ≠ ',')
  let tv ← digits_to_nat totChars
  let l ← eat_lit ", \"agent_papers\": ".data l
  let agChars := l.takeWhile (fun c => c ≠ '\x7d')
  let l := l.dropWhile (fun c => c ≠ '\x7d')
  let av ← digits_to_nat agChars
  if l = "\x7d".data then some (⟨yv, tv, av⟩ : YearSummary) else none

/-- One typed content block of an API response: text, a local tool request
(`tool_use`), platform-side tool activity (`server_tool_use`), or anything
else the inspection loop merely logs. -/
inductive ContentBlock where
  | text (s : String)
  | tool_use (name : String) (input : ToolInput) (id : String)
  | server_tool_use (name : String) (id : String)
  | other
deriving DecidableEq

/-- A `ToolInvocationResult` dict appended to the outgoing user turn:
`{"type": "tool_result", "tool_use_id": ..., "content": ...}`. -/
structure ToolInvocationResult where
  tool_use_id : String
  content : String
deriving DecidableEq

/-- The content of one transcript message: the initial prompt string, an
assistant block list, or a tool-result list. -/
inductive MsgContent where
  | text (s : String)
  | blocks (bs : List ContentBlock)
  | results (rs : List ToolInvocationResult)
deriving DecidableEq

/-- One role-tagged transcript turn. -/
structure Message where
  role : String
  content : MsgContent
deriving DecidableEq

/-- A structured API response: `stop_reason` is `none` when the attribute is
missing (the `hasattr` check fails), and an ordered block list. -/
structure ApiResponse where
  stop_reason : Option String
  content : List ContentBlock
deriving DecidableEq

/-- What one iteration of the loop receives from the service: an exception
out of `client.beta.messages.create` (transport/protocol failure), a falsy
response, or a structured response. -/
inductive TurnOutcome where
  | apiError
  | noResponse
  | success (r : ApiResponse)
deriving DecidableEq

/-- The extraction condition of line 279:
`"```" in block.text and ("年" in block.text and "論文" in block.text)`. -/
def is_report_block (s : String) : Bool :=
  decide ("```".data <:+: s.data) &&
    (decide ("年".data <:+: s.data) && decide ("論文".data <:+: s.data))

/-- One step of the inspection loop's markdown capture: a qualifying text
block overwrites the candidate (`markdown_result = block.text`), every other
block leaves it unchanged. -/
def update_markdown (md : String) (b : ContentBlock) : String :=
  match b with
  | .text s => if is_report_block s then s else md
  | _ => md

/-- The whole inspection pass over one response's content. -/
def inspect_content (md : String) (bs : List ContentBlock) : String :=
  bs.foldl update_markdown md

/-- The `tool_use` branch of the `stop_reason == "tool_use"` loop: one
`ToolInvocationResult` per local `tool_use` block, echoing its id;
`server_tool_use` and all other blocks contribute nothing. -/
def make_tool_results (provider : Provider) (bs : List ContentBlock) :
    List ToolInvocationResult :=
  bs.filterMap fun b =>
    match b with
    | .tool_use name input id =>
        some ⟨id, process_tool_call provider name input⟩
    | _ => none

/-- Engine state: the transcript and the captured candidate report, plus a
ghost trace of every content block the inspection loop has examined (used
only to state properties; the Python code has no such variable). -/
structure EngineState where
  messages : List Message
  markdown_result : String
  seen : List ContentBlock
deriving DecidableEq

/-- Whether an iteration `break`s out of the `while True` loop or continues
with an updated state. -/
inductive StepResult where
  | halt (st : EngineState)
  | next (st : EngineState)
deriving DecidableEq

/-- One iteration of the conversation loop, given what the service call
produced: exceptions and falsy/shapeless responses `break`; otherwise the
content is inspected (updating the candidate report), `end_turn` breaks,
`tool_use` appends the unmodified assistant content as one turn and — only
when non-empty — the tool results together as one user turn; any other stop
reason loops with nothing appended. -/
def engine_step (provider : Provider) (st : EngineState) (o : TurnOutcome) :
    StepResult :=
  match o with
  | .apiError => .halt st
  | .noResponse => .halt st
  | .success r =>
    match r.stop_reason with
    | none => .halt st
    | some sr =>
      let st1 : EngineState :=
        { st with
          markdown_result := inspect_content st.markdown_result r.content,
          seen := st.seen ++ r.content }
      if sr = "end_turn" then .halt st1
      else if sr = "tool_use" then
        let tool_results := make_tool_results provider r.content
        .next { st1 with
          messages := st.messages ++ [⟨"assistant", .blocks r.content⟩] ++
            (if tool_results.isEmpty then []
             else [⟨"user", .results tool_results⟩]) }
      else .next st1

/-- Runs the loop against a finite script of service-call outcomes, stopping
early on any `break`. -/
def run_loop (provider : Provider) : EngineState → List TurnOutcome → EngineState
  | st, [] => st
  | st, o :: rest =>
    match engine_step provider st o with
    | .halt st' => st'
    | .next st' => run_loop provider st' rest

/-- The fixed task instruction seeding the transcript. -/
def initial_prompt : String :=
  "タスク: cs.AI論文のAgent研究増加傾向分析（2020-2025）

目的: cs.AIカテゴリの論文(2020-2025年、各年200件)のタイトル・アブストラクトを分析し、Agent研究の増加傾向を示す

実行手順:
1. 2020年から2025年まで各年でsearch_and_filter_papersツールを呼び出し:
   - 各年のcs.AI論文を200件検索
   - Agent関連キーワードでフィルタリング実行
   - 集計結果を受け取り: \x7b\"year\": 2020, \"total_papers\": 200, \"agent_papers\": 10\x7d

2. code_executionで受け取った各年の結果からASCII棒グラフ生成:
   - numpy.histogramを使用してヒストグラムデータを作成
   - 年別Agent論文数と比率を計算
   - ASCII文字（█）を使って6年間の棒グラフを描画

最終出力形式（この形式のみ）:
```
2020年 : ███ 15論文 (7.50%)
2021年 : ████ 20論文 (10.00%)
2022年 : ██████ 30論文 (15.00%)
2023年 : ████████ 40論文 (20.00%)
2024年 : ██████████ 50論文 (25.00%)
2025年 : ████████████ 60論文 (30.00%)
```

重要:
- search_and_filter_papersツールを2020年から2025年で各1回ずつ（計6回）呼び出し
- code_executionでnumpyを活用:
  * import numpy as np
  * 各年のAgent論文数データを配列として作成
  * numpy.histogram()を使ってヒストグラムを計算
  * ヒストグラムの結果を基にASCII棒の長さを決定
- 受け取った結果でASCII棒グラフを作成
- 上記の形式のみを出力（他の説明や分析は不要）
- ASCII棒グラフは```コードブロックで囲む"

/-- The fallback report returned when no candidate was ever captured. -/
def fallback_report : String :=
  "# Analysis completed but no markdown result found"

/-- The loop's initial state: one user turn holding the task instruction, an
empty candidate report. -/
def initial_state : EngineState :=
  { messages := [⟨"user", .text initial_prompt⟩]
  , markdown_result := ""
  , seen := [] }

/-- `run_analysis` driven by a script of service outcomes: run the loop,
then return the stripped candidate report, or the fallback text when the
candidate is still the empty (falsy) string. -/
def run_analysis (provider : Provider) (script : List TurnOutcome) : String :=
  let final := run_loop provider initial_state script
  if final.markdown_result = "" then fallback_report
  else final.markdown_result.trim

/-- What the process run is observed to do: write the full report text to
the output artifact, or exit with a non-zero status (an exception escaping
`main` after being re-raised). -/
inductive MainOutcome where
  | wrote (artifact : String)
  | exit_nonzero
deriving DecidableEq

/-- `run_analysis` including its configuration check: a missing
`ANTHROPIC_API_KEY` raises before any network activity. -/
def run_analysis_checked (api_key : Option String) (provider : Provider)
    (script : List TurnOutcome) : Except Unit String :=
  match api_key with
  | none => .error ()
  | some _ => .ok (run_analysis provider script)

/-- `main()`: run the analysis, write the result verbatim to `output.md`
(`write_ok` models whether the storage is writable); any exception —
configuration error or write failure — is re-raised, terminating the
process with a non-zero status. -/
def main_program (api_key : Option String) (provider : Provider)
    (script : List TurnOutcome) (write_ok : Bool) : MainOutcome :=
  match run_analysis_checked api_key provider script with
  | .error _ => .exit_nonzero
  | .ok report => if write_ok then .wrote report else .exit_nonzero

/-- The state an iteration ends in, whether it `break`s or continues. -/
def StepResult.state : StepResult → EngineState
  | .halt s => s
  | .next s => s

/-- Whether a block is a local-tool request (`block.type == "tool_use"`);
`server_tool_use` and every other block type is not. -/
def is_local_tool_request (b : ContentBlock) : Bool :=
  match b with
  | .tool_use _ _ _ => true
  | _ => false

/-- The text of the qualifying report-candidate blocks of a block list, in
order. -/
def qualifying_texts (bs : List ContentBlock) : List String :=
  bs.filterMap fun b =>
    match b with
    | .text s => if is_report_block s then some s else none
    | _ => none

/-- The loop invariant tying the captured candidate report to the blocks
inspected so far: it is the last qualifying text seen, or `""` when none
was. -/
def md_good (st : EngineState) : Prop :=
  st.markdown_result = ((qualifying_texts st.seen).getLast?).getD ""

/-- The keyword list with `"multi-agent"` and `"agentic"` removed. -/
def reduced_keywords : List (List Char) :=
  ["agent".data, "planning".data, "reasoning".data, "tool calling".data,
   "tool use".data]

/-- `filter_agent_papers` rerun against the reduced keyword list. -/
def filter_agent_papers_reduced (papers : List Paper) (year : Option Int) :
    YearSummary :=
  { year := year
  , total_papers := papers.length
  , agent_papers :=
      papers.countP (fun p => reduced_keywords.any
        (fun k => decide (k <:+: paper_text p))) }

/-- A provider whose every call fails. -/
def fail_provider : Provider := fun _ _ => .error ()

/-- Five concrete stub records of which exactly the first two match the
keyword set ("agent" resp. "planning"). -/
def stub_papers : List Paper :=
  [ ⟨"An Agent Framework".data, "We study autonomous systems".data,
      "2022-01-01".data, ["cs.AI".data]⟩
  , ⟨"Neural Planning".data, "Search methods".data,
      "2022-02-01".data, ["cs.AI".data]⟩
  , ⟨"Convolutional Networks".data, "Image models".data,
      "2022-03-01".data, ["cs.AI".data]⟩
  , ⟨"Speech Recognition".data, "Audio models".data,
      "2022-04-01".data, ["cs.AI".data]⟩
  , ⟨"Graph Embeddings".data, "Nodes and edges".data,
      "2022-05-01".data, ["cs.AI".data]⟩ ]

/-- A stubbed adapter that answers every query with `stub_papers`. -/
def stub_provider : Provider := fun _ _ => .ok stub_papers

/-- A concrete `tool_use` response: one text block, one local tool request,
one platform tool activity block. -/
def sample_tool_use_response : ApiResponse :=
  { stop_reason := some "tool_use"
  , content :=
      [ .text "working"
      , .tool_use "search_and_filter_papers" ⟨some 2020, none⟩ "toolu_1"
      , .server_tool_use "code_execution" "srv_1" ] }

/-! ### Helper lemmas -/

theorem qualifying_texts_append (a b : List ContentBlock) :
    qualifying_texts (a ++ b) = qualifying_texts a ++ qualifying_texts b :=
  List.filterMap_append _ _ _

theorem mem_qualifying_texts {s : String} {bs : List ContentBlock}
    (h : s ∈ qualifying_texts bs) : is_report_block s = true := by
  simp only [qualifying_texts, List.mem_filterMap] at h
  obtain ⟨b, _, hf⟩ := h
  cases b with
  | text t =>
    by_cases hq : is_report_block t
    · simp [hq] at hf; simpa [hf] using hq
    · simp [hq] at hf
  | tool_use n i id => simp at hf
  | server_tool_use n id => simp at hf
  | other => simp at hf

theorem is_report_block_ne_empty {s : String}
    (h : is_report_block s = true) : s ≠ "" := by
  intro he
  subst he
  exact absurd h (by decide)

theorem qualifying_texts_cons_text (s : String) (rest : List ContentBlock) :
    qualifying_texts (ContentBlock.text s :: rest) =
      (if is_report_block s then [s] else []) ++ qualifying_texts rest := by
  by_cases hq : is_report_block s <;>
    simp [qualifying_texts, List.filterMap_cons, hq]

theorem inspect_content_eq (bs : List ContentBlock) :
    ∀ md : String,
      inspect_content md bs = ((qualifying_texts bs).getLast?).getD md := by
  induction bs with
  | nil => intro md; rfl
  | cons b rest ih =>
    intro md
    have step : inspect_content md (b :: rest) =
        inspect_content (update_markdown md b) rest := rfl
    rw [step, ih]
    cases b with
    | text s =>
      by_cases hq : is_report_block s
      · have hcons : qualifying_texts (ContentBlock.text s :: rest) =
            s :: qualifying_texts rest := by
          simp [qualifying_texts_cons_text, hq]
        have hupd : update_markdown md (ContentBlock.text s) = s := by
          simp [update_markdown, hq]
        rw [hcons, hupd]
        cases hg : (qualifying_texts rest).getLast? with
        | none =>
          rw [List.getLast?_eq_none_iff.mp hg]
          rfl
        | some q =>
          obtain ⟨ys, hys⟩ := List.getLast?_eq_some_iff.mp hg
          rw [hys, show s :: (ys ++ [q]) = (s :: ys) ++ [q] from rfl,
            List.getLast?_concat]
          rfl
      · have hcons : qualifying_texts (ContentBlock.text s :: rest) =
            qualifying_texts rest := by
          simp [qualifying_texts_cons_text, hq]
        have hupd : update_markdown md (ContentBlock.text s) = md := by
          simp [update_markdown, hq]
        rw [hcons, hupd]
    | tool_use n i id =>
      have hcons : qualifying_texts (ContentBlock.tool_use n i id :: rest) =
          qualifying_texts rest := by
        simp [qualifying_texts, List.filterMap_cons]
      rw [hcons]; rfl
    | server_tool_use n id =>
      have hcons : qualifying_texts (ContentBlock.server_tool_use n id :: rest) =
          qualifying_texts rest := by
        simp [qualifying_texts, List.filterMap_cons]
      rw [hcons]; rfl
    | other =>
      have hcons : qualifying_texts (ContentBlock.other :: rest) =
          qualifying_texts rest := by
        simp [qualifying_texts, List.filterMap_cons]
      rw [hcons]; rfl

theorem md_good_append (st : EngineState) (bs : List ContentBlock)
    (h : md_good st) :
    md_good { st with
      markdown_result := inspect_content st.markdown_result bs,
      seen := st.seen ++ bs } := by
  show inspect_content st.markdown_result bs =
    ((qualifying_texts (st.seen ++ bs)).getLast?).getD ""
  rw [inspect_content_eq, qualifying_texts_append, List.getLast?_append]
  cases hg : (qualifying_texts bs).getLast? with
  | none => simpa [Option.or] using h
  | some q => simp [Option.or]

theorem engine_step_md (provider : Provider) (st : EngineState)
    (o : TurnOutcome) (h : md_good st) :
    md_good (engine_step provider st o).state := by
  cases o with
  | apiError => exact h
  | noResponse => exact h
  | success r =>
    cases hsr : r.stop_reason with
    | none => simpa [engine_step, hsr, StepResult.state] using h
    | some sr =>
      have hbase := md_good_append st r.content h
      by_cases he : sr = "end_turn"
      · simpa [engine_step, hsr, he, StepResult.state] using hbase
      · by_cases ht : sr = "tool_use"
        · simp only [engine_step, hsr, he, ht, if_neg, if_pos,
            StepResult.state]
          simpa [md_good] using hbase
        · simpa [engine_step, hsr, he, ht, StepResult.state] using hbase

theorem run_loop_md (provider : Provider) (script : List TurnOutcome) :
    ∀ st : EngineState, md_good st → md_good (run_loop provider st script) := by
  induction script with
  | nil => intro st h; exact h
  | cons o rest ih =>
    intro st h
    have hstep := engine_step_md provider st o h
    cases hs : engine_step provider st o with
    | halt s =>
      rw [hs] at hstep
      simpa [run_loop, hs] using hstep
    | next s =>
      rw [hs] at hstep
      have : run_loop provider st (o :: rest) = run_loop provider s rest := by
        simp [run_loop, hs]
      rw [this]
      exact ih s hstep

theorem final_md_good (provider : Provider) (script : List TurnOutcome) :
    md_good (run_loop provider initial_state script) :=
  run_loop_md provider script initial_state (by rfl)

theorem run_analysis_shape (provider : Provider) (script : List TurnOutcome) :
    run_analysis provider script = fallback_report ∨
    (is_report_block
        (run_loop provider initial_state script).markdown_result = true ∧
      run_analysis provider script =
        (run_loop provider initial_state script).markdown_result.trim) := by
  have hg := final_md_good provider script
  unfold md_good at hg
  cases hl : (qualifying_texts (run_loop provider initial_state script).seen).getLast? with
  | none =>
    left
    rw [hl] at hg
    simp [run_analysis, hg]
  | some q =>
    right
    rw [hl] at hg
    simp only [Option.getD] at hg
    have hqmem : q ∈ qualifying_texts (run_loop provider initial_state script).seen := by
      obtain ⟨ys, hys⟩ := List.getLast?_eq_some_iff.mp hl
      simp [hys]
    have hqrep := mem_qualifying_texts hqmem
    have hne : (run_loop provider initial_state script).markdown_result ≠ "" := by
      rw [hg]
      exact is_report_block_ne_empty hqrep
    constructor
    · rw [hg]; exact hqrep
    · simp [run_analysis, hne]

theorem make_tool_results_length (provider : Provider)
    (bs : List ContentBlock) :
    (make_tool_results provider bs).length =
      bs.countP is_local_tool_request := by
  induction bs with
  | nil => rfl
  | cons b rest ih =>
    cases b <;>
      simp [make_tool_results, List.filterMap_cons, List.countP_cons,
        is_local_tool_request] <;>
      simpa [make_tool_results] using ih

/-! ### Claim theorems -/

/-- C1: in every loop turn whose stop reason is `tool_use`, the engine
appends the full assistant content unmodified as one assistant turn and the
produced `ToolInvocationResult`s (if any) together as one user turn, and the
number of results equals the number of local `tool_use` blocks —
`server_tool_use` blocks produce none. -/
theorem c1_tool_use_turn_results (provider : Provider) (st : EngineState)
    (r : ApiResponse) (h : r.stop_reason = some "tool_use") :
    ∃ (rs : List ToolInvocationResult) (md : String)
      (seen : List ContentBlock),
      engine_step provider st (.success r) =
        .next { messages := st.messages ++
                  [⟨"assistant", .blocks r.content⟩] ++
                  (if rs.isEmpty then [] else [⟨"user", .results rs⟩]),
                markdown_result := md, seen := seen } ∧
      rs.length = r.content.countP is_local_tool_request := by
  refine ⟨make_tool_results provider r.content,
    inspect_content st.markdown_result r.content, st.seen ++ r.content,
    ?_, make_tool_results_length provider r.content⟩
  simp [engine_step, h]

/-- C1 witness: a concrete tool-use response with one text block, one local
tool request and one server tool activity block yields exactly one
result. -/
theorem c1_tool_use_turn_results_witness :
    ∃ (rs : List ToolInvocationResult) (md : String)
      (seen : List ContentBlock),
      engine_step fail_provider initial_state
          (.success sample_tool_use_response) =
        .next { messages := initial_state.messages ++
                  [⟨"assistant", .blocks sample_tool_use_response.content⟩] ++
                  (if rs.isEmpty then [] else [⟨"user", .results rs⟩]),
                markdown_result := md, seen := seen } ∧
      rs.length = 1 := by
  obtain ⟨rs, md, seen, h1, h2⟩ :=
    c1_tool_use_turn_results fail_provider initial_state
      sample_tool_use_response rfl
  exact ⟨rs, md, seen, h1, h2.trans (by decide)⟩

/-- C2: a text block becomes the candidate final report exactly when it
contains a fenced code marker and both literal markers "年" and "論文", and
the engine returns the trimmed most recently seen qualifying block (the
fallback text when none was seen). -/
theorem c2_last_qualifying_block (provider : Provider)
    (script : List TurnOutcome) :
    run_analysis provider script =
      match (qualifying_texts
          (run_loop provider initial_state script).seen).getLast? with
      | some q => q.trim
      | none => fallback_report := by
  have hg := final_md_good provider script
  unfold md_good at hg
  cases hl : (qualifying_texts
      (run_loop provider initial_state script).seen).getLast? with
  | none =>
    rw [hl] at hg
    simp [run_analysis, hg]
  | some q =>
    rw [hl] at hg
    simp only [Option.getD] at hg
    have hqmem : q ∈ qualifying_texts
        (run_loop provider initial_state script).seen := by
      obtain ⟨ys, hys⟩ := List.getLast?_eq_some_iff.mp hl
      simp [hys]
    have hne := is_report_block_ne_empty (mem_qualifying_texts hqmem)
    simp [run_analysis, hg, hne]

/-- C3: fatal conditions (missing credential, unwritable output) exit the
process non-zero; with both in order, however the loop exited, the artifact
receives in one write the full best-effort report — the trimmed captured
candidate (a qualifying block) or the fixed fallback string. -/
theorem c3_fatal_and_best_effort (api_key : Option String)
    (provider : Provider) (script : List TurnOutcome) (write_ok : Bool) :
    ((api_key = none ∨ write_ok = false) →
      main_program api_key provider script write_ok = .exit_nonzero) ∧
    (∀ k : String, api_key = some k → write_ok = true →
      main_program api_key provider script write_ok =
        .wrote (run_analysis provider script) ∧
      (run_analysis provider script = fallback_report ∨
        (is_report_block
            (run_loop provider initial_state script).markdown_result = true ∧
          run_analysis provider script =
            (run_loop provider initial_state script).markdown_result.trim))) := by
  constructor
  · rintro (hk | hw)
    · subst hk; rfl
    · subst hw
      cases api_key with
      | none => rfl
      | some k => rfl
  · intro k hk hw
    subst hk; subst hw
    exact ⟨rfl, run_analysis_shape provider script⟩

/-- C3 witness: a missing credential exits non-zero; with a credential and
writable storage, a transport failure on the first call still writes the
analysis result. -/
theorem c3_fatal_and_best_effort_witness :
    main_program none fail_provider [] true = .exit_nonzero ∧
    main_program (some "key") fail_provider [.apiError] true =
      .wrote (run_analysis fail_provider [.apiError]) := by
  constructor
  · exact (c3_fatal_and_best_effort none fail_provider [] true).1 (Or.inl rfl)
  · exact ((c3_fatal_and_best_effort (some "key") fail_provider
      [.apiError] true).2 "key" rfl rfl).1

/-- C4: a failing provider call makes `search` return the empty sequence
(the exception is absorbed), and classifying an empty sequence yields the
summary with that year and both counts zero. -/
theorem c4_provider_failure_absorbed (provider : Provider)
    (year : Option Int) (max_results : Nat) (_hm : 0 < max_results)
    (hfail : provider year max_results = .error ()) :
    (search_arxiv_papers provider year max_results).papers = [] ∧
    filter_agent_papers [] year = ⟨year, 0, 0⟩ := by
  constructor
  · simp [search_arxiv_papers, hfail]
  · rfl

/-- C4 witness: evaluated at year 2023, `max_results = 5` and an
always-failing provider. -/
theorem c4_provider_failure_absorbed_witness :
    0 < 5 ∧
      ((search_arxiv_papers fail_provider (some 2023) 5).papers = [] ∧
        filter_agent_papers [] (some 2023) = ⟨some 2023, 0, 0⟩) :=
  ⟨by decide, c4_provider_failure_absorbed fail_provider (some 2023) 5
    (by decide) rfl⟩

/-- C5: for every record sequence and year the classifier summary satisfies
`agent_papers ≤ total_papers`, `total_papers` is the input length, and
`agent_papers` counts each record once — it is the number of records with at
least one keyword occurring, however many keywords occur. -/
theorem c5_summary_bounds (papers : List Paper) (year : Option Int) :
    (filter_agent_papers papers year).agent_papers ≤
      (filter_agent_papers papers year).total_papers ∧
    (filter_agent_papers papers year).total_papers = papers.length ∧
    (filter_agent_papers papers year).agent_papers =
      (papers.filter (fun p =>
        decide (∃ k ∈ agent_keywords, k <:+: paper_text p))).length := by
  refine ⟨?_, rfl, ?_⟩
  · show papers.countP matches_agent_keyword ≤ papers.length
    exact List.countP_le_length _
  show papers.countP matches_agent_keyword = _
  rw [← List.countP_eq_length_filter]
  apply List.countP_congr
  intro p _
  simp [matches_agent_keyword, List.any_eq_true]

/-- C6: dispatching the recognized tool runs the adapter then the
classifier and serializes the summary under the three fixed keys, so that
decoding recovers the counts; a stubbed adapter returning 5 records of which
2 match for year 2022 decodes to year 2022, 5 total, 2 matched. -/
theorem c6_dispatch_roundtrip (provider : Provider) (ps : List Paper)
    (hprov : provider (some 2022) 5 = .ok ps)
    (hlen : ps.length = 5)
    (hmatch : ps.countP matches_agent_keyword = 2) :
    decode_summary (process_tool_call provider "search_and_filter_papers"
      ⟨some 2022, some 5⟩) = some ⟨some 2022, 5, 2⟩ := by
  have hsearch : (search_arxiv_papers provider (some 2022) 5).papers = ps := by
    simp [search_arxiv_papers, hprov, List.take_of_length_le (le_of_eq hlen)]
  have hdispatch : process_tool_call provider "search_and_filter_papers"
      ⟨some 2022, some 5⟩ = json_dumps_summary ⟨some 2022, 5, 2⟩ := by
    simp [process_tool_call, hsearch, filter_agent_papers, hlen, hmatch]
  rw [hdispatch]
  decide

/-- C6 witness: the concrete stubbed adapter (5 records, 2 keyword
matches). -/
theorem c6_dispatch_roundtrip_witness :
    decode_summary (process_tool_call stub_provider
      "search_and_filter_papers" ⟨some 2022, some 5⟩) =
      some ⟨some 2022, 5, 2⟩ :=
  c6_dispatch_roundtrip stub_provider stub_papers rfl (by decide) (by decide)

/-- C7: every unrecognized tool name is answered with the sentinel text and
nothing else — the dispatcher total-functionally returns
`"Unknown tool: <name>"`. -/
theorem c7_unknown_tool_sentinel (provider : Provider) (name : String)
    (input : ToolInput) (h : name ≠ "search_and_filter_papers") :
    process_tool_call provider name input = "Unknown tool: " ++ name := by
  simp [process_tool_call, h]

/-- C7 witness: `dispatch("bogus_tool", \x7b\x7d)`. -/
theorem c7_unknown_tool_sentinel_witness :
    process_tool_call fail_provider "bogus_tool" ⟨none, none⟩ =
      "Unknown tool: bogus_tool" :=
  (c7_unknown_tool_sentinel fail_provider "bogus_tool" ⟨none, none⟩
    (by decide)).trans (by decide)

/-- C8 counterexample: the claim that every `search` call sleeps once —
also on provider failure — is false: the exception path returns without
reaching `time.sleep(1)`. -/
theorem c8_sleep_counterexample :
    ¬ (∀ (provider : Provider) (year : Option Int) (max_results : Nat),
        (search_arxiv_papers provider year max_results).sleeps = 1) := by
  intro h
  exact absurd (h fail_provider (some 2022) 5) (by decide)

/-- C8 amended: the fixed 1 time-unit sleep is performed exactly once on a
successful provider call, and not at all when the call fails. -/
theorem c8_sleep_on_success_only (provider : Provider) (year : Option Int)
    (max_results : Nat) :
    ((∃ ps, provider year max_results = .ok ps) →
      (search_arxiv_papers provider year max_results).sleeps = 1) ∧
    ((∃ e, provider year max_results = .error e) →
      (search_arxiv_papers provider year max_results).sleeps = 0) := by
  constructor
  · rintro ⟨ps, hps⟩
    simp [search_arxiv_papers, hps]
  · rintro ⟨e, he⟩
    simp [search_arxiv_papers, he]

/-- C8 witness: one succeeding and one failing concrete call. -/
theorem c8_sleep_on_success_only_witness :
    (search_arxiv_papers (fun _ _ => .ok []) (some 2022) 5).sleeps = 1 ∧
    (search_arxiv_papers fail_provider (some 2022) 5).sleeps = 0 :=
  ⟨(c8_sleep_on_success_only (fun _ _ => .ok []) (some 2022) 5).1 ⟨[], rfl⟩,
   (c8_sleep_on_success_only fail_provider (some 2022) 5).2 ⟨(), rfl⟩⟩

/-- C9: dispatching the recognized tool without a `year` key neither throws
nor falls through to the unknown-tool sentinel: with the provider call
failing, the answer is the serialized summary with `null` year and zero
counts. -/
theorem c9_missing_year_null_summary (provider : Provider)
    (input : ToolInput) (hyear : input.year = none)
    (hfail : provider none (input.max_results.getD 200) = .error ()) :
    process_tool_call provider "search_and_filter_papers" input =
      "\x7b\"year\": null, \"total_papers\": 0, \"agent_papers\": 0\x7d" ∧
    process_tool_call provider "search_and_filter_papers" input ≠
      "Unknown tool: search_and_filter_papers" := by
  have h1 : process_tool_call provider "search_and_filter_papers" input =
      json_dumps_summary ⟨none, 0, 0⟩ := by
    simp [process_tool_call, hyear, search_arxiv_papers, hfail,
      filter_agent_papers]
  refine ⟨h1.trans (by decide), ?_⟩
  rw [h1]
  decide

/-- C9 witness: empty argument mapping and an always-failing provider. -/
theorem c9_missing_year_null_summary_witness :
    process_tool_call fail_provider "search_and_filter_papers"
      ⟨none, none⟩ =
      "\x7b\"year\": null, \"total_papers\": 0, \"agent_papers\": 0\x7d" :=
  (c9_missing_year_null_summary fail_provider ⟨none, none⟩ rfl rfl).1

/-- C10: removing `"multi-agent"` and `"agentic"` from the keyword set never
changes the classifier's summary, because both contain `"agent"` as a
substring and matching is substring membership in the lowered text. -/
theorem c10_redundant_keywords (papers : List Paper) (year : Option Int) :
    filter_agent_papers papers year =
      filter_agent_papers_reduced papers year := by
  have hcount : papers.countP matches_agent_keyword =
      papers.countP (fun p => reduced_keywords.any
        (fun k => decide (k <:+: paper_text p))) := by
    apply List.countP_congr
    intro p _
    have hma : "agent".data <:+: "multi-agent".data := by decide
    have hag : "agent".data <:+: "agentic".data := by decide
    simp only [matches_agent_keyword, agent_keywords, reduced_keywords,
      List.any_cons, List.any_nil, Bool.or_eq_true, decide_eq_true_eq,
      Bool.false_eq_true, or_false]
    constructor
    · rintro (h | h | h | h | h | h | h)
      · exact Or.inl h
      · exact Or.inl (hma.trans h)
      · exact Or.inl (hag.trans h)
      · exact Or.inr (Or.inl h)
      · exact Or.inr (Or.inr (Or.inl h))
      · exact Or.inr (Or.inr (Or.inr (Or.inl h)))
      · exact Or.inr (Or.inr (Or.inr (Or.inr h)))
    · rintro (h | h | h | h | h)
      · exact Or.inl h
      · exact Or.inr (Or.inr (Or.inr (Or.inl h)))
      · exact Or.inr (Or.inr (Or.inr (Or.inr (Or.inl h))))
      · exact Or.inr (Or.inr (Or.inr (Or.inr (Or.inr (Or.inl h)))))
      · exact Or.inr (Or.inr (Or.inr (Or.inr (Or.inr (Or.inr h)))))
  simp [filter_agent_papers, filter_agent_papers_reduced, hcount]

end ArxivTrend
